import Mathlib

/-!
Verification development for the accessibility remediation pipeline in
src/content.js of the browser-ext repository.  The JavaScript source is
shallowly embedded: pure string predicates become functions on character
lists, the asynchronous capture and orchestration code becomes explicit
event lists and a small-step relation, and the inference-response handling
becomes functions over an explicit payload model.  Each claim of the
specification about this code is then settled as a theorem below.
-/

/-! ## JavaScript string primitives, modelled on character lists

JS strings in the relevant code are ASCII, so a JS string is modelled as a
Lean `String` and its code-unit sequence as `String.data`.  `s.trim()`,
`s.toLowerCase()`, `s.includes(t)`, `s.split(/\s+/)` and `s.length` are
modelled below.  For a trimmed non-empty receiver, `split(/\s+/)` returns
exactly the maximal whitespace-free runs, which is what `splitWs` computes.
-/

/-- JS `String.prototype.trim`, on the character list. -/
def trimL (l : List Char) : List Char :=
  ((l.dropWhile Char.isWhitespace).reverse.dropWhile Char.isWhitespace).reverse

/-- JS `String.prototype.toLowerCase` on the character list (ASCII inputs). -/
def lowerL (s : String) : List Char :=
  s.data.map Char.toLower

/-- JS `s.includes(pat)`: substring containment. -/
def jsIncludes (l pat : List Char) : Bool :=
  decide (pat <:+: l)

/-- JS `s.split(/\s+/)` restricted to trimmed inputs: the maximal runs of
non-whitespace characters, in order. -/
def splitWs (l : List Char) : List (List Char) :=
  (l.splitOnP Char.isWhitespace).filter (fun w => w ≠ [])

/-- JS truthiness of a nullable string value (attribute lookups return null
for absent attributes; null and the empty string are falsy). -/
def jsTruthy : Option String → Bool
  | none => false
  | some s => s ≠ ""

/-- Update the element at one index of a list, used to model an in-place
mutation of one node of the queried node population. -/
def updateAt {α : Type} : List α → Nat → (α → α) → List α
  | [], _, _ => []
  | a :: l, 0, f => f a :: l
  | a :: l, n + 1, f => a :: updateAt l n f

/-! ## Link classifier (src/content.js, needsBetterLinkText and
isDescriptiveLinkText, lines 2442-2496) -/

/-- The fixed vague-phrase lexicon of needsBetterLinkText (lines 2451-2458). -/
def vaguePatterns : List String :=
  ["click here", "here", "read more", "learn more", "more", "continue",
   "go", "view", "see", "check", "find out", "discover", "explore",
   "download", "get", "try", "start", "begin", "next", "previous",
   "back", "forward", "submit", "send", "contact", "call", "email",
   "link", "button", "this", "that", "it", "details", "info",
   "page", "site", "website", "portal", "platform", "tool"]

/-- The fixed descriptive-term lexicon of isDescriptiveLinkText
(lines 2486-2491). -/
def descriptiveWords : List String :=
  ["home", "about", "contact", "products", "services", "blog", "news",
   "support", "help", "documentation", "guide", "tutorial", "pricing",
   "login", "signup", "register", "profile", "account", "dashboard",
   "settings", "preferences", "cart", "checkout", "order", "search"]

/-- src/content.js lines 2484-2496: a link text is descriptive when its
lowercased trimmed form contains a known descriptive term, or the text is
longer than 15 characters. -/
def isDescriptiveLinkText (text : String) : Bool :=
  let lowerText := trimL (lowerL text)
  descriptiveWords.any (fun w => jsIncludes lowerText w.data) ||
    decide (text.data.length > 15)

/-- src/content.js lines 2442-2482: the link-vagueness classifier.  A link
with empty (whitespace-only) text is skipped; otherwise the text is marked
as needing generation when it has at most three words and matches the vague
lexicon (by full equality, substring containment or word equality), or when
it has at most eight characters and fails the descriptive check. -/
def needsBetterLinkText (linkText : String) : Bool :=
  if trimL linkText.data = [] then false
  else
    let lowerText := trimL (lowerL linkText)
    let words := splitWs lowerText
    if words.length ≤ 3 &&
        vaguePatterns.any (fun p =>
          decide (lowerText = p.data) || jsIncludes lowerText p.data ||
            words.any (fun w => decide (w = p.data))) then
      true
    else if linkText.data.length ≤ 8 && !isDescriptiveLinkText linkText then
      true
    else
      false

/-- Stated from the specification wording (spec section 4.1, Link): the text
is NeedsGeneration when it is short (at most 3 words) and contains a phrase
of the vague lexicon, or is at most 8 characters and fails the descriptive
check.  Used to compare the spec sentence against needsBetterLinkText. -/
def specLinkNeedsGeneration (text : String) : Bool :=
  let lowerText := trimL (lowerL text)
  let words := splitWs lowerText
  (words.length ≤ 3 &&
      vaguePatterns.any (fun p => jsIncludes lowerText p.data)) ||
    (text.data.length ≤ 8 && !isDescriptiveLinkText text)

/-! ## Inference client response handling

The transport outcome of one `fetch` to the model endpoint, as seen by the
result-handling code: either `response.ok` is false (an HTTP status error),
or the message content is not valid JSON (`JSON.parse` throws), or it parses
to an object whose fields may each be present or absent.  The per-schema
object types use `Option` fields so that payloads missing required fields
are representable. -/

/-- Parsed message content for the form_field_help schema
(src/content.js lines 310-331); every field may be absent. -/
structure FormFieldJson where
  field_purpose : Option String
  input_type : Option String
  label : Option String
  aria_label : Option String
deriving DecidableEq, Repr

/-- Parsed message content for the alt_text_response schema
(src/content.js lines 1453-1470); every field may be absent. -/
structure AltTextJson where
  classification : Option String
  alt_text : Option String
  reasoning : Option String
deriving DecidableEq, Repr

/-- Transport-plus-parse outcome of one inference call. -/
inductive LMFetch (α : Type) where
  | httpError (status : Nat)
  | badPayload
  | parsed (a : α)
deriving DecidableEq

/-- The error taxonomy named by the specification.  `schemaViolation` is
included so that one can state whether the code ever produces it. -/
inductive InferFailure where
  | httpStatus (code : Nat)
  | parseFailure
  | schemaViolation
deriving DecidableEq

/-- Outcome of generateFormFieldHelp as seen by its caller: either the
parsed object is returned, or an exception propagates. -/
inductive InferOutcome (α : Type) where
  | returned (a : α)
  | thrown (e : InferFailure)
deriving DecidableEq

/-- src/content.js lines 340-351 (generateFormFieldHelp result handling):
a non-ok response throws an HTTP error, an unparseable body throws a parse
error, and a parsed body is returned as-is, with no field validation. -/
def generateFormFieldHelpHandle : LMFetch FormFieldJson → InferOutcome FormFieldJson
  | .httpError s => .thrown (.httpStatus s)
  | .badPayload => .thrown .parseFailure
  | .parsed j => .returned j

/-- The required-field list of the form_field_help schema
(src/content.js line 330). -/
def formFieldRequiredOk (j : FormFieldJson) : Bool :=
  j.field_purpose.isSome && j.input_type.isSome && j.label.isSome &&
    j.aria_label.isSome

/-- The required-field list of the alt_text_response schema
(src/content.js line 1469). -/
def altTextRequiredOk (j : AltTextJson) : Bool :=
  j.classification.isSome && j.alt_text.isSome && j.reasoning.isSome

/-- src/content.js lines 1489-1497: extract the alt text from a parsed
alt_text_response.  A falsy alt_text field reads as the empty string; a
decorative classification or an empty alt text yields the empty string;
otherwise the trimmed alt text is returned. -/
def extractAltText (r : AltTextJson) : String :=
  let altText := r.alt_text.getD ""
  if r.classification = some "decorative" ∨ altText = "" then ""
  else String.mk (trimL altText.data)

/-- src/content.js lines 1358-1502 (generateAltText): images whose natural
width or height is below 50 short-circuit to the literal text
"Decorative image" before any request is made; otherwise an HTTP error or
parse error is caught and converted to the literal fallback text, and a
parsed response goes through extractAltText. -/
def generateAltTextFn (naturalWidth naturalHeight : Nat)
    (resp : LMFetch AltTextJson) : String :=
  if naturalWidth < 50 ∨ naturalHeight < 50 then "Decorative image"
  else
    match resp with
    | .httpError _ => "AI-generated description unavailable"
    | .badPayload => "AI-generated description unavailable"
    | .parsed r => extractAltText r

/-! ## Node models and the remediation appliers -/

/-- An img element, restricted to the attributes the pipeline reads or
writes.  `ariaLabelledByText` is the resolved text content of the element
referenced by aria-labelledby, when that reference resolves. -/
structure ImgNode where
  alt : Option String
  ariaLabel : Option String
  ariaLabelledByText : Option String
  rolePresentation : Bool
  naturalWidth : Nat
  naturalHeight : Nat
  dataAiGenerated : Bool
deriving DecidableEq, Repr

/-- src/content.js lines 2372-2375: generic alt text is an exact
(lowercased, trimmed) match against a fixed lexicon. -/
def isGenericAltText (text : String) : Bool :=
  ["image", "photo", "picture", "img", "graphic", "icon"].any
    (fun g => trimL (lowerL text) = g.data)

/-- JS truthiness of `attr && attr.trim()` for a nullable attribute. -/
def attrTrimTruthy : Option String → Bool
  | none => false
  | some s => s ≠ "" && trimL s.data ≠ []

/-- src/content.js lines 2342-2370 (needsAltText): an image needs alt text
generation unless it has non-generic alt text or aria-label, a resolving
aria-labelledby with non-empty text, an explicitly empty alt, or
role=presentation. -/
def needsAltText (img : ImgNode) : Bool :=
  if (match img.alt with
      | some a => a ≠ "" && trimL a.data ≠ [] && !isGenericAltText a
      | none => false) then false
  else if (match img.ariaLabel with
      | some a => a ≠ "" && trimL a.data ≠ [] && !isGenericAltText a
      | none => false) then false
  else if attrTrimTruthy img.ariaLabelledByText then false
  else if img.alt = some "" ∨ img.rolePresentation then false
  else true

/-- src/content.js lines 1080-1095 (hasExistingAltText): the image carries
a non-empty, non-generic alt or aria-label. -/
def hasExistingAltText (img : ImgNode) : Bool :=
  (match img.alt with
   | some a => a ≠ "" && trimL a.data ≠ [] && !isGenericAltText a
   | none => false) ||
  (match img.ariaLabel with
   | some a => a ≠ "" && trimL a.data ≠ [] && !isGenericAltText a
   | none => false)

/-- src/content.js line 998: the image applier sets the alt attribute to
the generated text.  No other attribute of the node is touched; in
particular no provenance marker is recorded on the image. -/
def applyAltText (img : ImgNode) (altText : String) : ImgNode :=
  { img with alt := some altText }

/-- The visible label element associated with a form input, together with
the data-ai-generated marker the pipeline sets on labels it authors. -/
structure FormLabel where
  text : String
  aiGenerated : Bool
deriving DecidableEq, Repr

/-- A form input element, restricted to what the pipeline reads or writes.
`label` is the associated visible label element (via label[for] or a
wrapping label), when one exists; `ariaLabelledByText` is the resolved text
of the aria-labelledby target. -/
structure FormNode where
  typ : String
  label : Option FormLabel
  ariaLabel : Option String
  ariaLabelledByText : Option String
deriving DecidableEq, Repr

/-- src/content.js lines 190-204 (hasVisibleLabel): an associated label
element with non-empty trimmed text. -/
def hasVisibleLabelB (n : FormNode) : Bool :=
  match n.label with
  | some l => trimL l.text.data ≠ []
  | none => false

/-- src/content.js lines 145-175 (needsLabel): hidden/submit/button/reset
inputs are excluded; otherwise a visible label, a non-empty aria-label, or
a resolving aria-labelledby with non-empty text suppresses generation.
Placeholders deliberately do not count. -/
def needsLabel (n : FormNode) : Bool :=
  if n.typ = "hidden" ∨ n.typ = "submit" ∨ n.typ = "button" ∨ n.typ = "reset" then
    false
  else if hasVisibleLabelB n then false
  else if attrTrimTruthy n.ariaLabel then false
  else if attrTrimTruthy n.ariaLabelledByText then false
  else true

/-- src/content.js lines 97-99 (analyzeAllFormFields filter): every input
whose type is falsy or not in the excluded list is analyzed. -/
def formAnalyzable (n : FormNode) : Bool :=
  n.typ = "" || !(["hidden", "submit", "button", "reset"].contains n.typ)

/-- src/content.js lines 636-666 (addGeneratedLabel): a label element for
the input is created (or an existing empty one reused), its text is set,
and data-ai-generated is set to true on that label element. -/
def addGeneratedLabel (n : FormNode) (labelText : String) : FormNode :=
  { n with label := some ⟨labelText, true⟩ }

/-- src/content.js lines 52-58: on a resolved generation result, a label is
inserted when the returned label is truthy and no visible label exists, and
the aria-label attribute is set when the returned aria_label is truthy and
the attribute is not already truthy.  No enabled-state check occurs here. -/
def applyFormFieldResult (n : FormNode) (j : FormFieldJson) : FormNode :=
  let n1 := if jsTruthy j.label && !hasVisibleLabelB n then
              addGeneratedLabel n (j.label.getD "")
            else n
  if jsTruthy j.aria_label && !jsTruthy n1.ariaLabel then
    { n1 with ariaLabel := j.aria_label }
  else n1

/-- An anchor or actionable button element, restricted to what the pipeline
reads or writes. -/
structure LinkNode where
  textContent : String
  ariaLabel : Option String
  title : Option String
  dataOriginalText : Option String
  dataAiGenerated : Bool
deriving DecidableEq, Repr

/-- src/content.js lines 2498-2513 (getLinkText): visible text, falling
back to aria-label, then to title, finally trimmed. -/
def getLinkText (l : LinkNode) : String :=
  let t := l.textContent
  let t := if trimL t.data = [] then l.ariaLabel.getD "" else t
  let t := if trimL t.data = [] then l.title.getD "" else t
  String.mk (trimL t.data)

/-- src/content.js lines 2761-2778 (addGeneratedLinkText): the original
text is preserved under data-original-text, the visible text is replaced,
and data-ai-generated plus an explanatory title are set. -/
def addGeneratedLinkText (l : LinkNode) (newText : String) : LinkNode :=
  let originalText := getLinkText l
  { l with
    dataOriginalText := some originalText,
    textContent := newText,
    dataAiGenerated := true,
    title := some ("AI-improved from: \"" ++ originalText ++ "\"") }

/-- src/content.js lines 2400-2406: on a resolved link generation result,
the text is replaced when suggested_text is truthy, and aria-label is set
when the returned aria_label is truthy and none is present.  The
link_text_enhancement payload restricted to its applied fields. -/
structure LinkGenJson where
  suggested_text : Option String
  aria_label : Option String
deriving DecidableEq, Repr

/-- The link applier of src/content.js lines 2400-2406. -/
def applyLinkResult (l : LinkNode) (j : LinkGenJson) : LinkNode :=
  let l1 := if jsTruthy j.suggested_text then
              addGeneratedLinkText l (j.suggested_text.getD "")
            else l
  if jsTruthy j.aria_label && !jsTruthy l1.ariaLabel then
    { l1 with ariaLabel := j.aria_label }
  else l1

/-! ## Capture renderer: canvas dimensions and encoding quality

Bounding-box sizes are modelled as naturals (the relevant geometry in the
source is integer-valued scaling and clamping); the scale factor of the
isolated raster-image path is a ratio, so those dimensions live in the
rationals. -/

/-- src/content.js lines 795-802 (captureInputField): canvas sized to the
element plus 10px padding on each side, with floors of 200 by 50 and no
upper clamp. -/
def captureInputFieldDims (rectW rectH : Nat) : Nat × Nat :=
  (max 200 (rectW + 10 * 2), max 50 (rectH + 10 * 2))

/-- src/content.js lines 2885-2892 (captureLinkElement): as for inputs but
with a height floor of 40, again with no upper clamp. -/
def captureLinkElementDims (rectW rectH : Nat) : Nat × Nat :=
  (max 200 (rectW + 10 * 2), max 40 (rectH + 10 * 2))

/-- src/content.js lines 862-879 (captureInputWithContext): a 150px margin
around the element, clamped to the viewport and then to 800 by 600. -/
def captureInputWithContextDims (rectW rectH viewW viewH : Nat) : Nat × Nat :=
  (min 800 (min viewW (rectW + 150 * 2)), min 600 (min viewH (rectH + 150 * 2)))

/-- src/content.js lines 2959-2976 (captureLinkWithContext): identical
clamping to the input context path. -/
def captureLinkWithContextDims (rectW rectH viewW viewH : Nat) : Nat × Nat :=
  (min 800 (min viewW (rectW + 150 * 2)), min 600 (min viewH (rectH + 150 * 2)))

/-- src/content.js lines 1679-1698 (captureImageWithContext): the margin is
1.5 times the larger element dimension; the context region is clamped to
the viewport and the canvas to 800 by 600. -/
def captureImageWithContextDims (rectW rectH viewW viewH : ℚ) : ℚ × ℚ :=
  let margin := 3 / 2 * max rectW rectH
  (min 800 (min viewW (rectW + margin * 2)), min 600 (min viewH (rectH + margin * 2)))

/-- src/content.js lines 2021-2038 (captureSVGContextAsBase64): a 100px
margin, viewport-derived clamps, then 800 by 600. -/
def captureSVGContextDims (rectW rectH clampW clampH : Nat) : Nat × Nat :=
  (min 800 (min clampW (rectW + 100 * 2)), min 600 (min clampH (rectH + 100 * 2)))

/-- src/content.js lines 1527-1546 (captureImageOnly, onload handler): an
image larger than 800 in either dimension is scaled by
min(800/width, 800/height); otherwise it is drawn at natural size. -/
def captureImageOnlyDims (w h : Nat) : ℚ × ℚ :=
  if 800 < w ∨ 800 < h then
    let ratio := min (800 / (w : ℚ)) (800 / (h : ℚ))
    ((w : ℚ) * ratio, (h : ℚ) * ratio)
  else ((w : ℚ), (h : ℚ))

/-- JPEG quality used for every isolated capture encode (0.8 throughout
src/content.js). -/
def isolatedJpegQuality : ℚ := 4 / 5

/-- JPEG quality used for every context capture encode (0.6 throughout
src/content.js). -/
def contextJpegQuality : ℚ := 3 / 5

/-! ## Capture renderer: settlement of the capture promises

Each capture function wraps its work in a promise whose executor registers
load/error handlers and fallback timers.  The environment behaviour of an
asynchronous media load is modelled explicitly, and the embedding computes
the full list of settlement calls the executor can make under that
behaviour, each tagged with its (millisecond) trigger time.  The promise
takes the value of the earliest call; later calls are ignored by promise
semantics. -/

/-- Behaviour of one `new Image()` load: the load event fires at time t
(with the subsequent canvas draw succeeding or throwing), the error event
fires at time t, or neither ever fires. -/
inductive MediaLoad where
  | loads (t : Nat) (drawOk : Bool)
  | fails (t : Nat)
  | never
deriving DecidableEq

/-- What a capture settlement call carries. -/
inductive CaptureOutcome where
  | realImage
  | placeholder
deriving DecidableEq, Repr

/-- A promise settlement call: the executors of the capture promises only
ever resolve, but rejection is representable so that its absence is a
statement, not a modelling artefact. -/
inductive SettleCall where
  | resolved (o : CaptureOutcome)
  | rejected
deriving DecidableEq, Repr

/-- Whether the first load attempt is still pending when the 2000ms retry
timer checks `img.complete` (src/content.js lines 1565-1566). -/
def pendingAt2000 : MediaLoad → Bool
  | .never => true
  | .loads t _ => 2000 ≤ t
  | .fails t => 2000 ≤ t

/-- Settlement calls of one load attempt of captureImageOnly: the onload
handler resolves the drawn image, or resolves the fallback when the draw
throws (lines 1527-1553); the onerror handler resolves the fallback
(lines 1555-1558). `base` is the time at which the attempt started. -/
def imageAttemptEvents (base : Nat) : MediaLoad → List (Nat × SettleCall)
  | .loads t ok =>
      [(base + t, .resolved (if ok then .realImage else .placeholder))]
  | .fails t => [(base + t, .resolved .placeholder)]
  | .never => []

/-- src/content.js lines 1505-1662 (captureImageOnly, non-SVG path): the
settlement calls made by the executor, under first-attempt behaviour `a1`,
second-attempt (no-CORS retry at 2000ms) behaviour `a2`, and whether the
synchronous setup code throws.  The catch block resolves the final
fallback; the 10000ms ultimate timeout always resolves the fallback. -/
def captureImageOnlyEvents (setupThrows : Bool) (a1 a2 : MediaLoad) :
    List (Nat × SettleCall) :=
  if setupThrows then [(0, .resolved .placeholder)]
  else
    imageAttemptEvents 0 a1 ++
      (if pendingAt2000 a1 then imageAttemptEvents 2000 a2 else []) ++
      [(10000, .resolved .placeholder)]

/-- The distinct code path of captureSVGAsBase64 (src/content.js lines
1816-2018): which branch the source selects and how its asynchronous
sub-steps behave. -/
inductive SVGCase where
  | setupThrows
  | externalFetchFails (t : Nat)
  | externalNoSvgElement (t : Nat)
  | externalRaster (t : Nat) (r : MediaLoad)
  | dataUrlRaster (r : MediaLoad)
  | inlineSvgRaster (r : MediaLoad)
  | otherSource
deriving DecidableEq

/-- Settlement calls of one SVG rasterization attempt: the onload handler
draws to a fresh canvas and resolves (a throwing draw leaves the promise
untouched); the onerror handler resolves the fallback. -/
def svgRasterEvents (base : Nat) : MediaLoad → List (Nat × SettleCall)
  | .loads t ok => if ok then [(base + t, .resolved .realImage)] else []
  | .fails t => [(base + t, .resolved .placeholder)]
  | .never => []

/-- src/content.js lines 1816-2018 (captureSVGAsBase64): the settlement
calls made by the executor under the given case.  A fetch failure, a
missing svg element, a rasterization error and the catch block all resolve
the fallback; the 5000ms timeout always resolves the fallback. -/
def captureSVGAsBase64Events : SVGCase → List (Nat × SettleCall)
  | .setupThrows => [(0, .resolved .placeholder)]
  | .externalFetchFails t => [(t, .resolved .placeholder), (5000, .resolved .placeholder)]
  | .externalNoSvgElement t => [(t, .resolved .placeholder), (5000, .resolved .placeholder)]
  | .externalRaster t r => svgRasterEvents t r ++ [(5000, .resolved .placeholder)]
  | .dataUrlRaster r => svgRasterEvents 0 r ++ [(5000, .resolved .placeholder)]
  | .inlineSvgRaster r => svgRasterEvents 0 r ++ [(5000, .resolved .placeholder)]
  | .otherSource => [(0, .resolved .placeholder), (5000, .resolved .placeholder)]

/-- A settlement-call list witnesses a promise that settles by time `T`,
resolved (never rejected): some call occurs no later than `T`, and every
call is a resolve. -/
def resolvesWithin (evs : List (Nat × SettleCall)) (T : Nat) : Bool :=
  evs.any (fun e => e.1 ≤ T) &&
    evs.all (fun e => match e.2 with | .resolved _ => true | .rejected => false)

/-! ## Per-node generation tasks and batch settlement (Promise.all) -/

/-- Settlement of a task promise carrying a value of type α. -/
inductive TaskSettle (α : Type) where
  | resolved (a : α)
  | rejected
deriving DecidableEq

/-- Promise.all: resolves with the list of values when every input promise
resolves, rejects as soon as any input rejects. -/
def promiseAll {α : Type} : List (TaskSettle α) → TaskSettle (List α)
  | [] => .resolved []
  | .rejected :: _ => .rejected
  | .resolved a :: rest =>
    match promiseAll rest with
    | .resolved as => .resolved (a :: as)
    | .rejected => .rejected

/-- Environment of one generation task: what `await generate...` does. -/
inductive GenEnv (α : Type) where
  | throws
  | returns (a : α)
deriving DecidableEq

/-- A thrown-or-returned JS computation. -/
def tryCatchE {α : Type} (body : Except Unit α) (handler : α) : α :=
  match body with
  | .ok a => a
  | .error _ => handler

/-- Body of one form-field generation task before its catch block
(src/content.js lines 48-68): await the inference result and apply it. -/
def formGenBody (n : FormNode) (env : GenEnv FormFieldJson) :
    Except Unit (FormNode × Bool) :=
  match env with
  | .throws => .error ()
  | .returns j => .ok (applyFormFieldResult n j, true)

/-- One form-field generation task with its catch block (lines 70-80): a
failure leaves the node unmutated and reports success = false. -/
def formGenTask (n : FormNode) (env : GenEnv FormFieldJson) : FormNode × Bool :=
  tryCatchE (formGenBody n env) (n, false)

/-- How the async task function settles: its promise rejects exactly when
an exception escapes the function body.  The whole body sits inside
try/catch, and the catch block (lines 70-80) only updates indicators and
returns a literal object, so a thrown body is converted into a returned
failure record and the promise resolves either way. -/
def formGenTaskSettle (n : FormNode) (env : GenEnv FormFieldJson) :
    TaskSettle (FormNode × Bool) :=
  match formGenBody n env with
  | .ok r => .resolved r
  | .error _ => .resolved (n, false)

/-- Body of one image generation task before its catch block
(src/content.js lines 996-1008): generateAltText never throws (it has its
own catch), so the environment supplies the string it resolves with; the
apply step sets the alt attribute. -/
def imgGenBody (img : ImgNode) (env : GenEnv String) :
    Except Unit (ImgNode × Bool) :=
  match env with
  | .throws => .error ()
  | .returns s => .ok (applyAltText img s, true)

/-- One image generation task with its catch block (lines 1010-1020). -/
def imgGenTask (img : ImgNode) (env : GenEnv String) : ImgNode × Bool :=
  tryCatchE (imgGenBody img env) (img, false)

/-- Settlement of one image generation task: as for form fields, the body
is entirely inside try/catch (lines 1010-1020), so the promise resolves
with the catch value when the body throws. -/
def imgGenTaskSettle (img : ImgNode) (env : GenEnv String) :
    TaskSettle (ImgNode × Bool) :=
  match imgGenBody img env with
  | .ok r => .resolved r
  | .error _ => .resolved (img, false)

/-! ## Pipeline orchestrator: the two-phase step relation

Each highlight entry point maps a generation task over the needing nodes,
awaits `Promise.all` over the whole batch, then schedules the analysis
fan-out behind a 1000ms settling delay (src/content.js lines 83-92,
1023-1032 and 2431-2440).  The interleaving of task settlements is
nondeterministic, so the orchestrator is given as a small-step relation
over its phase together with the accumulated event trace. -/

/-- Observable events of one category run. -/
inductive PEvent where
  | genLaunch (i : Nat)
  | genSettle (i : Nat) (success : Bool)
  | settlingDelay
  | anaLaunch (i : Nat)
  | anaSettle (i : Nat)
deriving DecidableEq, Repr

/-- Phase of the orchestrator: which await it is blocked on, with the
indices of tasks not yet settled. -/
inductive OPhase where
  | genWait (pending : List Nat)
  | settleWait
  | anaWait (pending : List Nat)
  | idle
deriving DecidableEq

/-- Orchestrator state: current phase and the trace of emitted events. -/
structure OState where
  phase : OPhase
  trace : List PEvent
deriving DecidableEq

/-- Initial state of one category run with `nGen` generation tasks: the
`.map` launches every generation task synchronously before the batch await
(src/content.js line 42 / 990 / 2389). -/
def initOState (nGen : Nat) : OState :=
  ⟨.genWait (List.range nGen), (List.range nGen).map PEvent.genLaunch⟩

/-- One step of the orchestrator.  A pending generation task may settle in
any order; the batch await completes only when every generation task has
settled; the settling delay then fires and the analysis fan-out launches
all of its tasks; analysis tasks settle in any order. -/
inductive OStep (nAna : Nat) : OState → OState → Prop where
  | settleGen (i : Nat) (ok : Bool) (pending : List Nat) (tr : List PEvent)
      (h : i ∈ pending) :
      OStep nAna ⟨.genWait pending, tr⟩
        ⟨.genWait (pending.erase i), tr ++ [.genSettle i ok]⟩
  | genBatchDone (tr : List PEvent) :
      OStep nAna ⟨.genWait [], tr⟩ ⟨.settleWait, tr⟩
  | delayFires (tr : List PEvent) :
      OStep nAna ⟨.settleWait, tr⟩
        ⟨.anaWait (List.range nAna),
         (tr ++ [.settlingDelay]) ++ (List.range nAna).map PEvent.anaLaunch⟩
  | settleAna (i : Nat) (pending : List Nat) (tr : List PEvent)
      (h : i ∈ pending) :
      OStep nAna ⟨.anaWait pending, tr⟩
        ⟨.anaWait (pending.erase i), tr ++ [.anaSettle i]⟩
  | anaDone (tr : List PEvent) :
      OStep nAna ⟨.anaWait [], tr⟩ ⟨.idle, tr⟩

/-- Generation task `i` has settled somewhere in the trace. -/
def genSettledIn (tr : List PEvent) (i : Nat) : Bool :=
  tr.any (fun e => match e with | .genSettle j _ => j = i | _ => false)

/-- Every one of the `nGen` generation tasks has settled in the trace. -/
def allGenSettled (nGen : Nat) (tr : List PEvent) : Bool :=
  (List.range nGen).all (fun i => genSettledIn tr i)

/-- Generation task `i` has been launched somewhere in the trace. -/
def genLaunchedIn (tr : List PEvent) (i : Nat) : Bool :=
  tr.any (fun e => match e with | .genLaunch j => j = i | _ => false)

/-- Every one of the `nGen` generation tasks has been launched. -/
def allGenLaunched (nGen : Nat) (tr : List PEvent) : Bool :=
  (List.range nGen).all (fun i => genLaunchedIn tr i)

/-- Scan of a trace: at each analysis launch, every generation task must
already have been launched and settled.  `seen` is the already-scanned
prefix. -/
def phasedOk (nGen : Nat) : List PEvent → List PEvent → Bool
  | _, [] => true
  | seen, e :: rest =>
    (match e with
     | .anaLaunch _ => allGenSettled nGen seen && allGenLaunched nGen seen
     | _ => true) && phasedOk nGen (seen ++ [e]) rest

/-! ## Two-phase category runs: generated population and analysis targets

The functional view of one category run used for the population claims: the
generation fan-out mutates exactly the nodes its classifier selects, and
the analysis fan-out re-queries the (mutated) population and filters it
with the analysis classifier.  The environment `gen` gives, per node, the
value the generation task resolves with (`none` when the task failed). -/

/-- src/content.js lines 981-1032 and 1034-1078: the image population after
the generation fan-out, and the analysis targets computed from it by
re-querying all images and filtering with hasExistingAltText. -/
def highlightImagesRun (imgs : List ImgNode) (gen : ImgNode → Option String) :
    List ImgNode × List ImgNode :=
  let updated := imgs.map (fun img =>
    if needsAltText img then
      match gen img with
      | some s => applyAltText img s
      | none => img
    else img)
  (updated, updated.filter hasExistingAltText)

/-- src/content.js lines 33-92 and 94-143: the form-field population after
the generation fan-out, and the analysis targets computed from it by
re-querying all inputs and filtering with the analyzable-type check. -/
def highlightFormFieldsRun (inputs : List FormNode)
    (gen : FormNode → Option FormFieldJson) : List FormNode × List FormNode :=
  let updated := inputs.map (fun n =>
    if needsLabel n then
      match gen n with
      | some j => applyFormFieldResult n j
      | none => n
    else n)
  (updated, updated.filter formAnalyzable)

/-- Modelled from the spec: analyzeAllLinks is invoked by highlightLinks at
src/content.js line 2438 behind the settling delay, but its definition is
absent from the provided sources.  Per the specification AnalysisFanOut
step for the Link category, it re-classifies the full link population,
including just-texted nodes, and runs the pipeline in analysis mode for
each link that carries text, surfacing results through the feedback
interface.  Icon-only links without any text are not analyzable. -/
def analyzeAllLinksTargets (links : List LinkNode) : List LinkNode :=
  links.filter (fun l => getLinkText l ≠ "")

/-- src/content.js lines 2381-2440: the link population after the
generation fan-out, and the analysis targets of the (spec-modelled)
analysis fan-out over the re-queried population. -/
def highlightLinksRun (links : List LinkNode)
    (gen : LinkNode → Option LinkGenJson) : List LinkNode × List LinkNode :=
  let updated := links.map (fun l =>
    if needsBetterLinkText (getLinkText l) then
      match gen l with
      | some j => applyLinkResult l j
      | none => l
    else l)
  (updated, analyzeAllLinksTargets updated)

/-! ## Global toggle and in-flight completions (src/content.js lines 1-27,
960-975, 2330-2340, 3054-3084) -/

/-- Whole-page state visible to the content script: the enabled flag and
the three node populations. -/
structure ExtState where
  isEnabled : Bool
  imgs : List ImgNode
  inputs : List FormNode
  links : List LinkNode
deriving DecidableEq

/-- removeFormHighlights (lines 960-975): elements carrying
data-ai-generated are removed, so pipeline-authored labels disappear;
aria-label attributes set on the inputs themselves are not reverted. -/
def removeFormArtifacts (n : FormNode) : FormNode :=
  match n.label with
  | some l => if l.aiGenerated then { n with label := none } else n
  | none => n

/-- removeLinkHighlights (lines 3054-3084): links marked data-ai-generated
get their original text restored and the marker attributes removed. -/
def removeLinkArtifacts (l : LinkNode) : LinkNode :=
  if l.dataAiGenerated then
    { l with
      textContent := match l.dataOriginalText with
        | some t => t
        | none => l.textContent,
      dataAiGenerated := false,
      dataOriginalText := none,
      title := none }
  else l

/-- The toggle-off branch of the message listener (lines 21-25):
removeHighlights touches only image borders/classes and tooltips (the alt
attribute is left as-is), removeFormHighlights removes generated elements,
removeLinkHighlights restores link text. -/
def onToggleOff (s : ExtState) : ExtState :=
  { s with
    isEnabled := false,
    inputs := s.inputs.map removeFormArtifacts,
    links := s.links.map removeLinkArtifacts }

/-- Completion handler of one in-flight form-field generation request
(lines 49-58): the result is applied to the node unconditionally; the
enabled flag is not consulted. -/
def onFormGenResolved (s : ExtState) (idx : Nat) (j : FormFieldJson) : ExtState :=
  { s with inputs := updateAt s.inputs idx (fun n => applyFormFieldResult n j) }

/-- Completion handler of one in-flight image generation request
(lines 997-998): the resolved alt text is applied unconditionally; the
enabled flag is not consulted. -/
def onImgGenResolved (s : ExtState) (idx : Nat) (altText : String) : ExtState :=
  { s with imgs := updateAt s.imgs idx (fun img => applyAltText img altText) }

/-- Observer: did the form-field result handling report a schema violation. -/
def reportsSchemaViolation : InferOutcome FormFieldJson → Bool
  | .thrown .schemaViolation => true
  | _ => false

/-- Invariant of the orchestrator relation: the trace is phase-ordered, all
generation tasks have been launched, and the pending list of the generation
await accounts for every not-yet-settled generation task. -/
def OInv (nGen : Nat) (s : OState) : Prop :=
  phasedOk nGen [] s.trace = true ∧
  allGenLaunched nGen s.trace = true ∧
  (match s.phase with
   | .genWait pending => ∀ i, i < nGen → i ∈ pending ∨ genSettledIn s.trace i = true
   | _ => allGenSettled nGen s.trace = true)

/-! ## Helper lemmas -/

/-- splitOnP decomposes a list into a head piece that is a prefix and tail
pieces that are contiguous segments. -/
theorem splitOnP_parts (p : Char → Bool) (l : List Char) :
    ∃ h t, l.splitOnP p = h :: t ∧ h <+: l ∧ ∀ w ∈ t, w <:+: l := by
  induction l with
  | nil =>
    exact ⟨[], [], List.splitOnP_nil p, List.nil_prefix, by simp⟩
  | cons x xs ih =>
    obtain ⟨h, t, heq, hpre, htail⟩ := ih
    by_cases hx : p x
    · refine ⟨[], h :: t, ?_, List.nil_prefix, ?_⟩
      · rw [List.splitOnP_cons, if_pos hx, heq]
      · intro w hw
        rcases List.mem_cons.mp hw with rfl | hw2
        · exact List.infix_cons hpre.isInfix
        · exact List.infix_cons (htail w hw2)
    · refine ⟨x :: h, t, ?_, ?_, ?_⟩
      · rw [List.splitOnP_cons, if_neg hx, heq, List.modifyHead_cons]
      · obtain ⟨r, hr⟩ := hpre
        exact ⟨r, by rw [List.cons_append, hr]⟩
      · intro w hw
        exact List.infix_cons (htail w hw)

/-- Every word produced by splitWs is a contiguous segment of the input. -/
theorem mem_splitWs_isSeg (l w : List Char) (hw : w ∈ splitWs l) : w <:+: l := by
  have hmem : w ∈ l.splitOnP Char.isWhitespace := (List.mem_filter.mp hw).1
  obtain ⟨h, t, heq, hpre, htail⟩ := splitOnP_parts Char.isWhitespace l
  rw [heq] at hmem
  rcases List.mem_cons.mp hmem with rfl | hmem2
  · exact hpre.isInfix
  · exact htail w hmem2

/-- The three-way vague-pattern test of needsBetterLinkText collapses to
plain substring containment: full equality is a special case, and any word
of the text is itself a substring of the text. -/
theorem vagueCheck_eq (lower p : List Char) :
    (decide (lower = p) || jsIncludes lower p ||
      (splitWs lower).any (fun w => decide (w = p))) = jsIncludes lower p := by
  cases hinc : jsIncludes lower p with
  | true => simp [hinc]
  | false =>
    have hni : ¬ (p <:+: lower) := by
      simpa [jsIncludes] using hinc
    have h1 : decide (lower = p) = false := by
      cases heq2 : decide (lower = p) with
      | false => rfl
      | true =>
        have he : lower = p := of_decide_eq_true heq2
        exact absurd (by rw [← he]) hni
    have h2 : (splitWs lower).any (fun w => decide (w = p)) = false := by
      cases hany : (splitWs lower).any (fun w => decide (w = p)) with
      | false => rfl
      | true =>
        obtain ⟨w, hwmem, hwp⟩ := List.any_eq_true.mp hany
        have hw2 : w = p := of_decide_eq_true hwp
        exact absurd (hw2 ▸ mem_splitWs_isSeg lower w hwmem) hni
    simp [h1, h2, hinc]

/-- Boolean shape of the classifier body. -/
theorem bool_if_or (x y : Bool) :
    (if x = true then true else if y = true then true else false) = (x || y) := by
  cases x <;> cases y <;> simp

/-! ## Claim C1 -/

/-- C1 counterexample: with a successful transport, the parsed payload
missing required fields (field_purpose, input_type and aria_label absent
from a form_field_help response; classification and reasoning absent from
an alt_text_response) is returned to the caller as-is instead of being
reported as a schema_violation, and the partially-present alt text "hello"
is exposed. -/
theorem claim1_counterexample :
    generateFormFieldHelpHandle (.parsed ⟨none, none, some "Email address", none⟩)
      = .returned ⟨none, none, some "Email address", none⟩ ∧
    formFieldRequiredOk ⟨none, none, some "Email address", none⟩ = false ∧
    generateAltTextFn 100 100 (.parsed ⟨none, some "hello", none⟩) = "hello" ∧
    altTextRequiredOk ⟨none, some "hello", none⟩ = false := by
  exact ⟨rfl, rfl, by decide, rfl⟩

/-- C1 (amended): after a transport-successful response the client only
JSON-parses the payload; no required-field re-validation occurs.  Every
successfully parsed form_field_help payload is returned unchanged, a
schema_violation error is never produced, and a parsed alt_text_response
goes straight into alt-text extraction, which consumes whatever fields are
present. -/
theorem claim1_no_revalidation :
    (∀ j : FormFieldJson,
        generateFormFieldHelpHandle (.parsed j) = .returned j) ∧
    (∀ f : LMFetch FormFieldJson,
        reportsSchemaViolation (generateFormFieldHelpHandle f) = false) ∧
    (∀ r : AltTextJson,
        generateAltTextFn 100 100 (.parsed r) = extractAltText r) ∧
    generateAltTextFn 100 100 (.parsed ⟨none, some "hello", none⟩) = "hello" := by
  refine ⟨fun j => rfl, fun f => ?_, fun r => rfl, by decide⟩
  cases f with
  | httpError s => rfl
  | badPayload => rfl
  | parsed j => rfl

/-! ## Claim C2 -/

/-- C2 counterexample: an image with natural size 30 by 30 is treated as
decorative by the pipeline (the small-image short-circuit of generateAltText,
lines 1358-1362), yet the description applied to the node is the non-empty
literal "Decorative image", not the empty string. -/
theorem claim2_counterexample :
    generateAltTextFn 30 30 (.parsed ⟨some "decorative", some "ornate border", some "r"⟩)
      = "Decorative image" ∧
    (applyAltText ⟨none, none, none, false, 30, 30, false⟩ "Decorative image").alt
      = some "Decorative image" ∧
    "Decorative image" ≠ "" := by
  exact ⟨by decide, rfl, by decide⟩

/-- C2 (amended): for images that actually reach the model (both natural
dimensions at least 50), a generation result classified decorative yields
the empty string as applied description regardless of any literal non-empty
alt_text in the payload; but images with natural width or height below 50
are short-circuited as likely decorative with the non-empty literal
description "Decorative image". -/
theorem claim2_decorative_empty (w h : Nat) (r : AltTextJson)
    (hw : 50 ≤ w) (hh : 50 ≤ h)
    (hc : r.classification = some "decorative") :
    generateAltTextFn w h (.parsed r) = "" ∧
    (∀ img : ImgNode,
        (applyAltText img (generateAltTextFn w h (.parsed r))).alt = some "") ∧
    (∀ w2 h2 : Nat, ∀ f : LMFetch AltTextJson, w2 < 50 ∨ h2 < 50 →
        generateAltTextFn w2 h2 f = "Decorative image") := by
  have hsmall : ¬ (w < 50 ∨ h < 50) := by omega
  have hg : generateAltTextFn w h (.parsed r) = "" := by
    simp only [generateAltTextFn, extractAltText]
    rw [if_neg hsmall]
    simp [hc]
  refine ⟨hg, fun img => by rw [hg]; rfl, fun w2 h2 f hlt => ?_⟩
  unfold generateAltTextFn
  rw [if_pos hlt]

/-- C2 witness. -/
theorem claim2_decorative_empty_witness :
    generateAltTextFn 60 60 (.parsed ⟨some "decorative", some "a golden frame", some "x"⟩) = "" :=
  (claim2_decorative_empty 60 60 ⟨some "decorative", some "a golden frame", some "x"⟩
    (by decide) (by decide) rfl).1

/-! ## Claim C3 -/

/-- C3 counterexample: the link text "Contact support team" has three words
and contains the vague-lexicon entry "contact", so needsBetterLinkText
classifies it as needing generation, contradicting the claim that it
classifies as Skip or NeedsAnalysis. -/
theorem claim3_counterexample :
    needsBetterLinkText "Contact support team" = true := by
  decide

/-- C3 (amended): for non-empty link text the classifier marks
NeedsGeneration exactly when the text has at most three words and contains
a phrase of the vague lexicon, or has at most eight characters and fails
the descriptive check; "click here", "here" and "read more" classify as
NeedsGeneration and "Shipping Address" does not, but "Contact support team"
also classifies as NeedsGeneration because "contact" is in the vague
lexicon. -/
theorem claim3_vague_link_rule :
    (∀ t : String, trimL t.data ≠ [] →
        needsBetterLinkText t = specLinkNeedsGeneration t) ∧
    needsBetterLinkText "click here" = true ∧
    needsBetterLinkText "here" = true ∧
    needsBetterLinkText "read more" = true ∧
    needsBetterLinkText "Shipping Address" = false ∧
    needsBetterLinkText "Contact support team" = true := by
  refine ⟨?_, by decide, by decide, by decide, by decide, by decide⟩
  intro t ht
  unfold needsBetterLinkText specLinkNeedsGeneration
  rw [if_neg ht]
  simp only [vagueCheck_eq]
  exact bool_if_or _ _

/-- C3 witness. -/
theorem claim3_vague_link_rule_witness :
    trimL ("click here").data ≠ [] ∧
    needsBetterLinkText "click here" = specLinkNeedsGeneration "click here" :=
  ⟨by decide, claim3_vague_link_rule.1 "click here" (by decide)⟩

/-! ## Claim C4 -/

/-- C4: every capture call settles by resolving, never rejecting, within
its bounded timeout: under every media-load behaviour (including media that
never loads and fetches that fail) every settlement call of
captureImageOnly is a resolve and one occurs by 10000ms, every settlement
call of captureSVGAsBase64 is a resolve and one occurs by 5000ms, and when
the media never loads the only settlement is the placeholder fallback. -/
theorem claim4_capture_always_resolves :
    (∀ (st : Bool) (a1 a2 : MediaLoad),
        resolvesWithin (captureImageOnlyEvents st a1 a2) 10000 = true) ∧
    (∀ c : SVGCase, resolvesWithin (captureSVGAsBase64Events c) 5000 = true) ∧
    captureImageOnlyEvents false .never .never
      = [(10000, .resolved .placeholder)] ∧
    captureSVGAsBase64Events (.externalRaster 0 .never)
      = [(0 + 5000, .resolved .placeholder)] := by
  refine ⟨?_, ?_, by decide, ?_⟩
  · intro st a1 a2
    cases st with
    | true => simp [captureImageOnlyEvents, resolvesWithin]
    | false =>
      cases a1 <;> cases a2 <;>
        simp [captureImageOnlyEvents, resolvesWithin, imageAttemptEvents,
              pendingAt2000, List.any_append, List.all_append]
  · intro c
    cases c with
    | setupThrows => simp [captureSVGAsBase64Events, resolvesWithin]
    | externalFetchFails t => simp [captureSVGAsBase64Events, resolvesWithin]
    | externalNoSvgElement t => simp [captureSVGAsBase64Events, resolvesWithin]
    | externalRaster t r =>
      cases r with
      | loads t2 ok =>
        cases ok <;>
          simp [captureSVGAsBase64Events, resolvesWithin, svgRasterEvents,
                List.any_append, List.all_append]
      | fails t2 =>
        simp [captureSVGAsBase64Events, resolvesWithin, svgRasterEvents,
              List.any_append, List.all_append]
      | never => simp [captureSVGAsBase64Events, resolvesWithin, svgRasterEvents]
    | dataUrlRaster r =>
      cases r with
      | loads t2 ok =>
        cases ok <;>
          simp [captureSVGAsBase64Events, resolvesWithin, svgRasterEvents,
                List.any_append, List.all_append]
      | fails t2 =>
        simp [captureSVGAsBase64Events, resolvesWithin, svgRasterEvents,
              List.any_append, List.all_append]
      | never => simp [captureSVGAsBase64Events, resolvesWithin, svgRasterEvents]
    | inlineSvgRaster r =>
      cases r with
      | loads t2 ok =>
        cases ok <;>
          simp [captureSVGAsBase64Events, resolvesWithin, svgRasterEvents,
                List.any_append, List.all_append]
      | fails t2 =>
        simp [captureSVGAsBase64Events, resolvesWithin, svgRasterEvents,
              List.any_append, List.all_append]
      | never => simp [captureSVGAsBase64Events, resolvesWithin, svgRasterEvents]
    | otherSource => simp [captureSVGAsBase64Events, resolvesWithin]
  · simp [captureSVGAsBase64Events, svgRasterEvents]

/-! ## Claim C5: orchestrator lemmas -/

/-- Settlement marks persist under trace extension. -/
theorem genSettledIn_append (tr tr2 : List PEvent) (i : Nat)
    (h : genSettledIn tr i = true) : genSettledIn (tr ++ tr2) i = true := by
  unfold genSettledIn at *
  rw [List.any_append, h]
  rfl

/-- Launch marks persist under trace extension. -/
theorem genLaunchedIn_append (tr tr2 : List PEvent) (i : Nat)
    (h : genLaunchedIn tr i = true) : genLaunchedIn (tr ++ tr2) i = true := by
  unfold genLaunchedIn at *
  rw [List.any_append, h]
  rfl

/-- Full settlement persists under trace extension. -/
theorem allGenSettled_append (nGen : Nat) (tr tr2 : List PEvent)
    (h : allGenSettled nGen tr = true) : allGenSettled nGen (tr ++ tr2) = true := by
  rw [allGenSettled, List.all_eq_true] at *
  exact fun i hi => genSettledIn_append tr tr2 i (h i hi)

/-- Full launch persists under trace extension. -/
theorem allGenLaunched_append (nGen : Nat) (tr tr2 : List PEvent)
    (h : allGenLaunched nGen tr = true) : allGenLaunched nGen (tr ++ tr2) = true := by
  rw [allGenLaunched, List.all_eq_true] at *
  exact fun i hi => genLaunchedIn_append tr tr2 i (h i hi)

/-- The phase scan splits over an append. -/
theorem phasedOk_append (nGen : Nat) (seen tr tr2 : List PEvent) :
    phasedOk nGen seen (tr ++ tr2)
      = (phasedOk nGen seen tr && phasedOk nGen (seen ++ tr) tr2) := by
  induction tr generalizing seen with
  | nil => simp [phasedOk]
  | cons e rest ih =>
    simp only [List.cons_append, phasedOk, List.append_eq]
    rw [ih (seen ++ [e])]
    simp [List.append_assoc, Bool.and_assoc]

/-- A block of generation launches passes the phase scan from any prefix. -/
theorem phasedOk_genLaunches (nGen : Nat) (l : List Nat) (seen : List PEvent) :
    phasedOk nGen seen (l.map PEvent.genLaunch) = true := by
  induction l generalizing seen with
  | nil => simp [phasedOk]
  | cons i rest ih => simpa [phasedOk] using ih (seen ++ [PEvent.genLaunch i])

/-- A single non-analysis-launch event passes the phase scan. -/
theorem phasedOk_single_settle (nGen : Nat) (seen : List PEvent) (i : Nat) (ok : Bool) :
    phasedOk nGen seen [PEvent.genSettle i ok] = true := by
  simp [phasedOk]

/-- The settling-delay event passes the phase scan. -/
theorem phasedOk_single_delay (nGen : Nat) (seen : List PEvent) :
    phasedOk nGen seen [PEvent.settlingDelay] = true := by
  simp [phasedOk]

/-- An analysis-settle event passes the phase scan. -/
theorem phasedOk_single_anaSettle (nGen : Nat) (seen : List PEvent) (i : Nat) :
    phasedOk nGen seen [PEvent.anaSettle i] = true := by
  simp [phasedOk]

/-- A block of analysis launches passes the phase scan once every
generation task has been launched and settled in the scanned prefix. -/
theorem phasedOk_anaLaunches (nGen : Nat) (l : List Nat) (seen : List PEvent)
    (hs : allGenSettled nGen seen = true) (hl : allGenLaunched nGen seen = true) :
    phasedOk nGen seen (l.map PEvent.anaLaunch) = true := by
  induction l generalizing seen with
  | nil => simp [phasedOk]
  | cons i rest ih =>
    simp only [List.map_cons, phasedOk, hs, hl, Bool.and_true, Bool.true_and]
    exact ih (seen ++ [PEvent.anaLaunch i])
      (allGenSettled_append nGen seen _ hs) (allGenLaunched_append nGen seen _ hl)

/-- The invariant holds initially. -/
theorem OInv_init (nGen : Nat) : OInv nGen (initOState nGen) := by
  refine ⟨phasedOk_genLaunches nGen (List.range nGen) [], ?_, ?_⟩
  · rw [allGenLaunched, List.all_eq_true]
    intro i hi
    rw [genLaunchedIn, List.any_eq_true]
    refine ⟨PEvent.genLaunch i, List.mem_map_of_mem _ hi, by simp⟩
  · intro i hi
    exact Or.inl (List.mem_range.mpr hi)

/-- The invariant is preserved by every orchestrator step. -/
theorem OInv_step (nGen nAna : Nat) (s s2 : OState)
    (hstep : OStep nAna s s2) (hinv : OInv nGen s) : OInv nGen s2 := by
  obtain ⟨hord, hlaunch, hphase⟩ := hinv
  cases hstep with
  | settleGen i ok pending tr hmem =>
    refine ⟨?_, allGenLaunched_append nGen tr _ hlaunch, ?_⟩
    · rw [phasedOk_append, hord, phasedOk_single_settle]
      rfl
    · intro k hk
      rcases hphase k hk with hkp | hks
      · by_cases hki : k = i
        · subst hki
          refine Or.inr ?_
          rw [genSettledIn, List.any_append, List.any_cons]
          simp [genSettledIn]
        · exact Or.inl ((List.mem_erase_of_ne hki).mpr hkp)
      · exact Or.inr (genSettledIn_append tr _ k hks)
  | genBatchDone tr =>
    refine ⟨hord, hlaunch, ?_⟩
    rw [allGenSettled, List.all_eq_true]
    intro i hi
    rcases hphase i (List.mem_range.mp hi) with hip | his
    · exact absurd hip (List.not_mem_nil i)
    · exact his
  | delayFires tr =>
    have hs2 : allGenSettled nGen (tr ++ [PEvent.settlingDelay]) = true :=
      allGenSettled_append nGen tr _ hphase
    have hl2 : allGenLaunched nGen (tr ++ [PEvent.settlingDelay]) = true :=
      allGenLaunched_append nGen tr _ hlaunch
    refine ⟨?_, allGenLaunched_append nGen _ _ hl2, ?_⟩
    · rw [phasedOk_append, phasedOk_append, hord, phasedOk_single_delay]
      simp only [Bool.true_and, List.nil_append]
      exact phasedOk_anaLaunches nGen _ _ hs2 hl2
    · exact allGenSettled_append nGen _ _ hs2
  | settleAna i pending tr hmem =>
    refine ⟨?_, allGenLaunched_append nGen tr _ hlaunch, ?_⟩
    · rw [phasedOk_append, hord, phasedOk_single_anaSettle]
      rfl
    · exact allGenSettled_append nGen tr _ hphase
  | anaDone tr =>
    exact ⟨hord, hlaunch, hphase⟩

/-- C5: phase ordering.  In every reachable state of a category run, the
emitted trace satisfies the phase scan: at the moment any analysis task is
launched, every generation task of that category has already been launched
and has settled.  The batch await is total, not a partial quorum: the
transition out of the generation phase is enabled only when its pending
set is empty. -/
theorem claim5_phase_ordering (nGen nAna : Nat) (s : OState)
    (h : Relation.ReflTransGen (OStep nAna) (initOState nGen) s) :
    phasedOk nGen [] s.trace = true := by
  suffices hinv : OInv nGen s from hinv.1
  induction h with
  | refl => exact OInv_init nGen
  | tail hr hstep ih => exact OInv_step nGen nAna _ _ hstep ih

/-- C5 witness: a concrete run with one generation and one analysis task,
stepped to the point where the analysis fan-out has launched. -/
theorem claim5_phase_ordering_witness :
    phasedOk 1 []
      ((([PEvent.genLaunch 0] ++ [PEvent.genSettle 0 true]) ++
        [PEvent.settlingDelay]) ++ [PEvent.anaLaunch 0]) = true := by
  have st1 : OStep 1 ⟨.genWait [0], [PEvent.genLaunch 0]⟩
      ⟨.genWait [], [PEvent.genLaunch 0] ++ [PEvent.genSettle 0 true]⟩ :=
    @OStep.settleGen 1 0 true [0] [PEvent.genLaunch 0] (by simp)
  have st2 : OStep 1 ⟨.genWait [], [PEvent.genLaunch 0] ++ [PEvent.genSettle 0 true]⟩
      ⟨.settleWait, [PEvent.genLaunch 0] ++ [PEvent.genSettle 0 true]⟩ :=
    OStep.genBatchDone _
  have st3 : OStep 1 ⟨.settleWait, [PEvent.genLaunch 0] ++ [PEvent.genSettle 0 true]⟩
      ⟨.anaWait [0],
       ((([PEvent.genLaunch 0] ++ [PEvent.genSettle 0 true]) ++
         [PEvent.settlingDelay]) ++ [PEvent.anaLaunch 0])⟩ :=
    OStep.delayFires _
  have hd : Relation.ReflTransGen (OStep 1) (initOState 1)
      ⟨.anaWait [0],
       ((([PEvent.genLaunch 0] ++ [PEvent.genSettle 0 true]) ++
         [PEvent.settlingDelay]) ++ [PEvent.anaLaunch 0])⟩ :=
    Relation.ReflTransGen.head st1
      (Relation.ReflTransGen.head st2 (Relation.ReflTransGen.single st3))
  exact claim5_phase_ordering 1 1 _ hd

/-! ## Claim C6 -/

/-- Each form generation task settles by resolving, thanks to its catch. -/
theorem formGenTaskSettle_resolved (n : FormNode) (env : GenEnv FormFieldJson) :
    formGenTaskSettle n env = .resolved (formGenTask n env) := by
  cases env <;> rfl

/-- Each image generation task settles by resolving, thanks to its catch. -/
theorem imgGenTaskSettle_resolved (img : ImgNode) (env : GenEnv String) :
    imgGenTaskSettle img env = .resolved (imgGenTask img env) := by
  cases env <;> rfl

/-- A batch of always-resolving tasks makes Promise.all resolve with the
list of their values. -/
theorem promiseAll_resolved_map {α β : Type} (f : α → TaskSettle β) (g : α → β)
    (hf : ∀ a, f a = .resolved (g a)) (l : List α) :
    promiseAll (l.map f) = .resolved (l.map g) := by
  induction l with
  | nil => rfl
  | cons a rest ih => simp [promiseAll, hf a, ih]

/-- C6: node-scoped, non-propagating failures.  For every generation
fan-out (form fields and images), the batch Promise.all always resolves
with one result per node even when some tasks throw, the entry at any index
depends only on that node and its own environment, and a throwing task
leaves its node unmutated and marked as failed. -/
theorem claim6_node_error_isolation :
    (∀ tasks : List (FormNode × GenEnv FormFieldJson),
        promiseAll (tasks.map (fun p => formGenTaskSettle p.1 p.2))
          = .resolved (tasks.map (fun p => formGenTask p.1 p.2))) ∧
    (∀ (tasks : List (FormNode × GenEnv FormFieldJson)) (k : Nat),
        (tasks.map (fun p => formGenTask p.1 p.2))[k]?
          = (tasks[k]?).map (fun p => formGenTask p.1 p.2)) ∧
    (∀ n : FormNode, formGenTask n .throws = (n, false)) ∧
    (∀ imgTasks : List (ImgNode × GenEnv String),
        promiseAll (imgTasks.map (fun p => imgGenTaskSettle p.1 p.2))
          = .resolved (imgTasks.map (fun p => imgGenTask p.1 p.2))) ∧
    (∀ (imgTasks : List (ImgNode × GenEnv String)) (k : Nat),
        (imgTasks.map (fun p => imgGenTask p.1 p.2))[k]?
          = (imgTasks[k]?).map (fun p => imgGenTask p.1 p.2)) ∧
    (∀ img : ImgNode, imgGenTask img .throws = (img, false)) := by
  refine ⟨?_, ?_, fun n => rfl, ?_, ?_, fun img => rfl⟩
  · exact promiseAll_resolved_map _ _ (fun p => formGenTaskSettle_resolved p.1 p.2)
  · intro tasks k
    exact List.getElem?_map _ tasks k
  · exact promiseAll_resolved_map _ _ (fun p => imgGenTaskSettle_resolved p.1 p.2)
  · intro imgTasks k
    exact List.getElem?_map _ imgTasks k

/-! ## Claim C7 -/

/-- C7 counterexample: an input element 1000px wide produces an isolated
capture canvas of width 1020, exceeding the claimed 800 by 600 bound. -/
theorem claim7_counterexample :
    (captureInputFieldDims 1000 30).1 = 1020 ∧
    800 < (captureInputFieldDims 1000 30).1 := by
  exact ⟨rfl, by decide⟩

/-- C7 (amended): every context capture canvas is clamped to at most 800 by
600 and the isolated raster-image capture is scaled to at most 800 by 800,
with bounded lossy encoding quality throughout; but the isolated form-field
and link captures are sized with the element (width at least the element
width) and have no upper clamp. -/
theorem claim7_capture_dims :
    (∀ a b vw vh : Nat, (captureInputWithContextDims a b vw vh).1 ≤ 800 ∧
        (captureInputWithContextDims a b vw vh).2 ≤ 600) ∧
    (∀ a b vw vh : Nat, (captureLinkWithContextDims a b vw vh).1 ≤ 800 ∧
        (captureLinkWithContextDims a b vw vh).2 ≤ 600) ∧
    (∀ a b cw ch : Nat, (captureSVGContextDims a b cw ch).1 ≤ 800 ∧
        (captureSVGContextDims a b cw ch).2 ≤ 600) ∧
    (∀ a b vw vh : ℚ, (captureImageWithContextDims a b vw vh).1 ≤ 800 ∧
        (captureImageWithContextDims a b vw vh).2 ≤ 600) ∧
    (∀ w h : Nat, (captureImageOnlyDims w h).1 ≤ 800 ∧
        (captureImageOnlyDims w h).2 ≤ 800) ∧
    (∀ w h : Nat, w ≤ (captureInputFieldDims w h).1 ∧
        h ≤ (captureInputFieldDims w h).2) ∧
    (∀ w h : Nat, w ≤ (captureLinkElementDims w h).1 ∧
        h ≤ (captureLinkElementDims w h).2) ∧
    (0 < isolatedJpegQuality ∧ isolatedJpegQuality < 1 ∧
     0 < contextJpegQuality ∧ contextJpegQuality < 1) := by
  refine ⟨?_, ?_, ?_, ?_, ?_, ?_, ?_, by norm_num [isolatedJpegQuality, contextJpegQuality]⟩
  · intro a b vw vh
    simp only [captureInputWithContextDims]
    omega
  · intro a b vw vh
    simp only [captureLinkWithContextDims]
    omega
  · intro a b cw ch
    simp only [captureSVGContextDims]
    omega
  · intro a b vw vh
    exact ⟨min_le_left _ _, min_le_left _ _⟩
  · intro w h
    unfold captureImageOnlyDims
    by_cases hb : 800 < w ∨ 800 < h
    · rw [if_pos hb]
      constructor
      · rcases Nat.eq_zero_or_pos w with hw0 | hwpos
        · subst hw0; simp
        · have hwq : (0 : ℚ) < (w : ℚ) := by exact_mod_cast hwpos
          calc (w : ℚ) * min (800 / (w : ℚ)) (800 / (h : ℚ))
              ≤ (w : ℚ) * (800 / (w : ℚ)) :=
                mul_le_mul_of_nonneg_left (min_le_left _ _) (le_of_lt hwq)
            _ = 800 := by field_simp
      · rcases Nat.eq_zero_or_pos h with hh0 | hhpos
        · subst hh0; simp
        · have hhq : (0 : ℚ) < (h : ℚ) := by exact_mod_cast hhpos
          calc (h : ℚ) * min (800 / (w : ℚ)) (800 / (h : ℚ))
              ≤ (h : ℚ) * (800 / (h : ℚ)) :=
                mul_le_mul_of_nonneg_left (min_le_right _ _) (le_of_lt hhq)
            _ = 800 := by field_simp
    · rw [if_neg hb]
      push_neg at hb
      constructor
      · show ((w : ℚ)) ≤ 800
        exact_mod_cast hb.1
      · show ((h : ℚ)) ≤ 800
        exact_mod_cast hb.2
  · intro w h
    simp only [captureInputFieldDims]
    omega
  · intro w h
    simp only [captureLinkElementDims]
    omega

/-! ## Claim C8 -/

/-- C8 counterexample: a successful image apply sets the alt attribute but
records no provenance marker anywhere on the node, so pipeline-authored alt
text is indistinguishable from author-authored alt text. -/
theorem claim8_counterexample :
    (applyAltText ⟨none, none, none, false, 100, 100, false⟩ "A red bicycle").alt
      = some "A red bicycle" ∧
    (applyAltText ⟨none, none, none, false, 100, 100, false⟩ "A red bicycle").dataAiGenerated
      = false := by
  exact ⟨rfl, rfl⟩

/-- C8 (amended): the Link applier always records provenance on the node
itself (data-ai-generated plus the preserved original text); the FormField
applier records data-ai-generated on the label element it inserts, when one
is inserted (an aria-label-only apply carries no marker); the Image applier
records no provenance marker at all. -/
theorem claim8_provenance_markers :
    (∀ (l : LinkNode) (t : String),
        (addGeneratedLinkText l t).dataAiGenerated = true ∧
        (addGeneratedLinkText l t).dataOriginalText = some (getLinkText l)) ∧
    (∀ (n : FormNode) (t : String),
        (addGeneratedLabel n t).label = some ⟨t, true⟩) ∧
    (∀ (n : FormNode) (j : FormFieldJson),
        (jsTruthy j.label && !hasVisibleLabelB n) = false →
          (applyFormFieldResult n j).label = n.label) ∧
    (∀ (img : ImgNode) (t : String),
        (applyAltText img t).dataAiGenerated = img.dataAiGenerated) := by
  refine ⟨fun l t => ⟨rfl, rfl⟩, fun n t => rfl, ?_, fun img t => rfl⟩
  intro n j h
  unfold applyFormFieldResult
  rw [h, if_neg (show ¬ (false = true) by simp)]
  dsimp only
  split <;> rfl

/-- C8 witness: the link conjunct at a concrete link, and the
no-label-inserted conjunct at a field that already has a visible label. -/
theorem claim8_provenance_markers_witness :
    ((addGeneratedLinkText ⟨"click here", none, none, none, false⟩ "View pricing plans").dataAiGenerated = true ∧
     (addGeneratedLinkText ⟨"click here", none, none, none, false⟩ "View pricing plans").dataOriginalText
       = some (getLinkText ⟨"click here", none, none, none, false⟩)) ∧
    (applyFormFieldResult ⟨"text", some ⟨"Name", false⟩, none, none⟩
        ⟨some "name", some "text", some "Full name", none⟩).label
      = some ⟨"Name", false⟩ :=
  ⟨claim8_provenance_markers.1 ⟨"click here", none, none, none, false⟩ "View pricing plans",
   claim8_provenance_markers.2.2.1 ⟨"text", some ⟨"Name", false⟩, none, none⟩
     ⟨some "name", some "text", some "Full name", none⟩ (by decide)⟩

/-! ## Claim C9 -/

/-- C9 counterexample: with one unlabeled text input, toggling the pipeline
off and then letting an in-flight generation request resolve still applies
the remediation: the disabled state carries a freshly inserted generated
label and a freshly set aria-label. -/
theorem claim9_counterexample :
    (onFormGenResolved
        (onToggleOff ⟨true, [], [⟨"text", none, none, none⟩], []⟩) 0
        ⟨some "email", some "email", some "Email address", some "Email address"⟩).isEnabled
      = false ∧
    (onFormGenResolved
        (onToggleOff ⟨true, [], [⟨"text", none, none, none⟩], []⟩) 0
        ⟨some "email", some "email", some "Email address", some "Email address"⟩).inputs
      = [⟨"text", some ⟨"Email address", true⟩, some "Email address", none⟩] := by
  exact ⟨rfl, by decide⟩

/-- C9 (amended): toggling off removes the markers and pipeline-authored
artifacts present at toggle time, but in-flight requests are not discarded:
the completion handlers never consult the enabled flag, so a request that
resolves after deactivation applies its remediation exactly as it would
with the pipeline enabled. -/
theorem claim9_inflight_results_applied :
    (∀ (s : ExtState) (idx : Nat) (j : FormFieldJson),
        onFormGenResolved { s with isEnabled := false } idx j
          = { onFormGenResolved s idx j with isEnabled := false }) ∧
    (∀ (s : ExtState) (idx : Nat) (t : String),
        onImgGenResolved { s with isEnabled := false } idx t
          = { onImgGenResolved s idx t with isEnabled := false }) ∧
    (∀ s : ExtState, (onToggleOff s).isEnabled = false) ∧
    (∀ s : ExtState,
        (onToggleOff s).links.all (fun l => !l.dataAiGenerated) = true) ∧
    (∀ s : ExtState,
        (onToggleOff s).inputs.all (fun n =>
          match n.label with
          | some lb => !lb.aiGenerated
          | none => true) = true) := by
  refine ⟨fun s idx j => rfl, fun s idx t => rfl, fun s => rfl, ?_, ?_⟩
  · intro s
    rw [List.all_eq_true]
    intro l hl
    simp only [onToggleOff] at hl
    obtain ⟨l0, _, rfl⟩ := List.mem_map.mp hl
    cases hd : l0.dataAiGenerated <;> simp [removeLinkArtifacts, hd]
  · intro s
    rw [List.all_eq_true]
    intro n hn
    simp only [onToggleOff] at hn
    obtain ⟨n0, _, rfl⟩ := List.mem_map.mp hn
    unfold removeFormArtifacts
    cases hl : n0.label with
    | none => simp [hl]
    | some lb => cases hai : lb.aiGenerated <;> simp [hai, hl]

/-! ## Claim C10 -/

/-- The form-field applier never changes the input's type attribute. -/
theorem applyFormFieldResult_typ (n : FormNode) (j : FormFieldJson) :
    (applyFormFieldResult n j).typ = n.typ := by
  unfold applyFormFieldResult addGeneratedLabel
  dsimp only
  split <;> split <;> rfl

/-- C10: once the generation fan-out has settled, the analysis fan-out
re-classifies the mutated population and covers the just-remediated nodes:
an image that needed generation and received non-empty, non-generic alt
text is in the analysis target set of analyzeAllImages; a form field that
needed a label and is of an analyzable type is in the analysis target set
of analyzeAllFormFields after its remediation; and a vague link whose text
was replaced by a non-empty suggestion is in the analysis target set of the
(spec-modelled) analyzeAllLinks. -/
theorem claim10_analysis_fanout :
    (∀ (imgs : List ImgNode) (gen : ImgNode → Option String) (img : ImgNode) (s : String),
        img ∈ imgs → needsAltText img = true → gen img = some s →
        trimL s.data ≠ [] → isGenericAltText s = false →
        applyAltText img s ∈ (highlightImagesRun imgs gen).2) ∧
    (∀ (inputs : List FormNode) (genF : FormNode → Option FormFieldJson)
        (n : FormNode) (j : FormFieldJson),
        n ∈ inputs → needsLabel n = true → genF n = some j →
        formAnalyzable n = true →
        applyFormFieldResult n j ∈ (highlightFormFieldsRun inputs genF).2) ∧
    (∀ (links : List LinkNode) (genL : LinkNode → Option LinkGenJson)
        (l : LinkNode) (j : LinkGenJson) (t : String),
        l ∈ links → needsBetterLinkText (getLinkText l) = true →
        genL l = some j → j.suggested_text = some t → trimL t.data ≠ [] →
        applyLinkResult l j ∈ (highlightLinksRun links genL).2) := by
  refine ⟨?_, ?_, ?_⟩
  · intro imgs gen img s hmem hneeds hgen hgtrim hgener
    have hs0 : s ≠ "" := fun h0 => hgtrim (by rw [h0]; rfl)
    simp only [highlightImagesRun]
    refine List.mem_filter.mpr ⟨?_, ?_⟩
    · exact List.mem_map.mpr ⟨img, hmem, by simp [hneeds, hgen]⟩
    · simp [hasExistingAltText, applyAltText, hs0, hgtrim, hgener]
  · intro inputs genF n j hmem hneeds hgen hana
    simp only [highlightFormFieldsRun]
    refine List.mem_filter.mpr ⟨?_, ?_⟩
    · exact List.mem_map.mpr ⟨n, hmem, by simp [hneeds, hgen]⟩
    · unfold formAnalyzable at hana ⊢
      rw [applyFormFieldResult_typ]
      exact hana
  · intro links genL l j t hmem hneeds hgen hsugg hgtrim
    have ht0 : t ≠ "" := fun h0 => hgtrim (by rw [h0]; rfl)
    have htext : (applyLinkResult l j).textContent = t := by
      unfold applyLinkResult
      rw [hsugg]
      dsimp only
      rw [if_pos (show jsTruthy (some t) = true by simp [jsTruthy, ht0])]
      split <;> rfl
    have hgt : getLinkText (applyLinkResult l j) = String.mk (trimL t.data) := by
      simp [getLinkText, htext, hgtrim]
    simp only [highlightLinksRun, analyzeAllLinksTargets]
    refine List.mem_filter.mpr ⟨?_, ?_⟩
    · exact List.mem_map.mpr ⟨l, hmem, by simp [hneeds, hgen]⟩
    · rw [hgt]
      exact decide_eq_true (fun hcon => hgtrim (congrArg String.data hcon))

/-- C10 witness: one image lacking alt text, remediated with the text
"A red bicycle", appears in the analysis target set. -/
theorem claim10_analysis_fanout_witness :
    applyAltText ⟨none, none, none, false, 100, 100, false⟩ "A red bicycle"
      ∈ (highlightImagesRun [⟨none, none, none, false, 100, 100, false⟩]
          (fun _ => some "A red bicycle")).2 :=
  claim10_analysis_fanout.1 [⟨none, none, none, false, 100, 100, false⟩]
    (fun _ => some "A red bicycle") ⟨none, none, none, false, 100, 100, false⟩
    "A red bicycle" (by simp) (by decide) rfl (by decide) (by decide)
